import Mathlib

/-!
Verification development for the diary-app persistence layer.

The definitions below are a shallow embedding of the TypeScript source:

* `DiaryDB` models `DiaryDBService` (src/lib/db.ts): the IndexedDB-backed
  store with a `diary` object store (keyPath `id`) and a `settings` object
  store (keyPath `key`), plus all exposed operations.
* `Utils.calculateWordCount` models the word counter in src/lib/utils.ts.
* `Editor` models the save path of the `DiaryEditor` component
  (autoSave / handleSave), which computes edit-history deltas and passes
  them to `DiaryDBService.updateDiary`.
* `DataMgmt.exportFlow` models the export button handler in
  DataManagement.tsx (backupData followed by updateLastBackup).

Timestamps are modelled as `Int` (milliseconds since epoch, the value of a
JS `Date`); each point where the source calls `new Date()` takes an
explicit `now` parameter.  Values read back from storage may hold either a
`Date` or its serialized string form, modelled by `StoredDate`.
-/

namespace DiaryApp

/-! ## Character classes used by the word counters (JS regexes) -/

/-- The character class of the CJK regex
`[一-龥぀-ゟ゠-ヿ가-힯]`. -/
def isCJK (c : Char) : Bool :=
  decide ((0x4e00 ≤ c.toNat ∧ c.toNat ≤ 0x9fa5) ∨
    (0x3040 ≤ c.toNat ∧ c.toNat ≤ 0x309f) ∨
    (0x30a0 ≤ c.toNat ∧ c.toNat ≤ 0x30ff) ∨
    (0xac00 ≤ c.toNat ∧ c.toNat ≤ 0xd7af))

/-- JS `\s` (also the set trimmed by `String.prototype.trim`):
whitespace and line terminators. -/
def jsWhitespace (c : Char) : Bool :=
  decide (c.toNat = 0x20 ∨ c.toNat = 0x09 ∨ c.toNat = 0x0a ∨ c.toNat = 0x0b ∨
    c.toNat = 0x0c ∨ c.toNat = 0x0d ∨ c.toNat = 0xa0 ∨ c.toNat = 0x1680 ∨
    (0x2000 ≤ c.toNat ∧ c.toNat ≤ 0x200a) ∨ c.toNat = 0x2028 ∨
    c.toNat = 0x2029 ∨ c.toNat = 0x202f ∨ c.toNat = 0x205f ∨
    c.toNat = 0x3000 ∨ c.toNat = 0xfeff)

/-- JS `\w`: ASCII letters, digits and underscore. -/
def isWordChar (c : Char) : Bool :=
  decide (('a' ≤ c ∧ c ≤ 'z') ∨ ('A' ≤ c ∧ c ≤ 'Z') ∨ ('0' ≤ c ∧ c ≤ '9') ∨ c = '_')

/-- The test `/[a-zA-Z0-9]/` applied to a word token. -/
def isAsciiAlnum (c : Char) : Bool :=
  decide (('a' ≤ c ∧ c ≤ 'z') ∨ ('A' ≤ c ∧ c ≤ 'Z') ∨ ('0' ≤ c ∧ c ≤ '9'))

/-! ## Text cleaning (`.replace(/<[^>]*>/g, '').replace(/&nbsp;/g, ' ').trim()`) -/

/-- Drop characters up to and including the first `>`;
`none` when no `>` remains (the regex `<[^>]*>` then has no match). -/
def findGt : List Char → Option (List Char)
  | [] => none
  | c :: rest => if c = '>' then some rest else findGt rest

theorem findGt_length_lt : ∀ l l', findGt l = some l' → l'.length < l.length := by
  intro l
  induction l with
  | nil => intro l' h; simp [findGt] at h
  | cons c rest ih =>
    intro l' h
    by_cases hc : c = '>'
    · simp [findGt, hc] at h
      subst h; simp
    · simp [findGt, hc] at h
      exact Nat.lt_trans (ih l' h) (by simp)

/-- One global pass of `.replace(/<[^>]*>/g, '')`, fuelled so that the
definition is structural (the fuel only needs to dominate the number of
matches; `stripTags` supplies the list length). -/
def stripTagsFuel : Nat → List Char → List Char
  | 0, l => l
  | fuel + 1, l =>
    match l with
    | [] => []
    | c :: rest =>
      if c = '<' then
        match findGt rest with
        | some rest' => stripTagsFuel fuel rest'
        | none => c :: rest
      else c :: stripTagsFuel fuel rest

/-- `content.replace(/<[^>]*>/g, '')`. -/
def stripTags (l : List Char) : List Char := stripTagsFuel l.length l

/-- `.replace(/&nbsp;/g, ' ')`. -/
def replaceNbsp : List Char → List Char
  | '&' :: 'n' :: 'b' :: 's' :: 'p' :: ';' :: rest => ' ' :: replaceNbsp rest
  | c :: rest => c :: replaceNbsp rest
  | [] => []

/-- `String.prototype.trim()`. -/
def jsTrim (l : List Char) : List Char :=
  ((l.dropWhile jsWhitespace).reverse.dropWhile jsWhitespace).reverse

/-- `trim` on a `String` (used for `title.trim()` in the editor). -/
def jsTrimS (s : String) : String := ⟨jsTrim s.data⟩

/-- Split at every whitespace character; empty chunks (from adjacent
separators or a leading/trailing separator) are kept, matching JS
`split`, and are discarded by the later `filter`. -/
def splitWsAux : List Char → List Char → List (List Char)
  | [], acc => [acc.reverse]
  | c :: rest, acc =>
    if jsWhitespace c then acc.reverse :: splitWsAux rest []
    else splitWsAux rest (c :: acc)

def tokensOf (l : List Char) : List (List Char) := splitWsAux l []

end DiaryApp

namespace DiaryApp.DiaryDB

/-! ## `DiaryDBService.calculateWordCount` (src/lib/db.ts, lines 246-262) -/

/-- The shared first step:
`content.replace(/<[^>]*>/g, '').replace(/&nbsp;/g, ' ').trim()`. -/
def cleanContent (content : String) : List Char :=
  jsTrim (replaceNbsp (stripTags content.data))

/-- `cleanContent.match(/[CJK]/g)` length. -/
def cjkCount (l : List Char) : Nat := (l.filter isCJK).length

/-- The Latin-word part: CJK chars become spaces, then
`.replace(/[^\w\s]/g, ' ')`, then `.split(/\s+/)` and the
`length > 0 && /[a-zA-Z0-9]/` filter. -/
def latinWordCount (l : List Char) : Nat :=
  let nonCjk := l.map fun c => if isCJK c then ' ' else c
  let depunct := nonCjk.map fun c =>
    if !(isWordChar c) && !(jsWhitespace c) then ' ' else c
  ((tokensOf depunct).filter fun w => !w.isEmpty && w.any isAsciiAlnum).length

/-- `DiaryDBService.calculateWordCount` — used on every create and on
every content-carrying update. -/
def calculateWordCount (content : String) : Nat :=
  let clean := cleanContent content
  if clean.isEmpty then 0 else cjkCount clean + latinWordCount clean

end DiaryApp.DiaryDB

namespace DiaryApp.Utils

/-- `calculateWordCount` from src/lib/utils.ts (lines 60-76); the editor
uses this copy to compute edit-history deltas.  It differs from the DB
copy only in not mapping punctuation to spaces before splitting; the
`replace(/\s+/g, ' ').split(' ')` pair is token splitting on whitespace
runs, which `tokensOf` plus the non-empty filter reproduces. -/
def calculateWordCount (text : String) : Nat :=
  let cleanText := jsTrim (replaceNbsp (stripTags text.data))
  if cleanText.isEmpty then 0
  else
    let cjk := (cleanText.filter isCJK).length
    let nonCjk := cleanText.map fun c => if isCJK c then ' ' else c
    cjk + ((tokensOf nonCjk).filter fun w => !w.isEmpty && w.any isAsciiAlnum).length

end DiaryApp.Utils

namespace DiaryApp

/-! ## Data model (src/lib/db.ts, lines 1-20 and the raw stored shape) -/

/-- A stored timestamp: either a `Date` (held as epoch milliseconds) or a
serialized string form, as found in records written by `JSON` restore or
an older schema.  `parseDate` in the source
(`date instanceof Date ? date : new Date(date)`) normalizes both. -/
inductive StoredDate where
  | ofDate (t : Int)
  | ofString (s : String)
deriving DecidableEq

/-- Modelled from the spec: `new Date(string)` — the runtime's ISO-8601
date parsing, a browser builtin outside this repository.  The claims use
only the fact that it yields a temporal (`Int`) value, so any concrete
total function is adequate here. -/
def jsDateParse (s : String) : Int :=
  s.data.foldl (fun a c => a * 131 + (c.toNat : Int)) 0

/-- `DiaryDBService.parseDate` (db.ts lines 90-93). -/
def parseDate : StoredDate → Int
  | .ofDate t => t
  | .ofString s => jsDateParse s

/-- One element of `editHistory` as returned to callers (timestamps
normalized to temporal values). -/
structure EditRecord where
  timestamp : Int
  changes : String
deriving DecidableEq

/-- One element of `editHistory` as it sits in storage. -/
structure RawEditRecord where
  timestamp : StoredDate
  changes : String
deriving DecidableEq

/-- The `DiaryEntry` interface (db.ts lines 1-15): the fully-populated,
normalized shape every read path returns. -/
structure DiaryEntry where
  id : String
  title : String
  content : String
  createdAt : Int
  updatedAt : Int
  wordCount : Nat
  isStarred : Bool
  isArchived : Bool
  isEdited : Bool
  editHistory : List EditRecord
deriving DecidableEq

/-- A record of the `diary` object store as actually stored: the boolean
flags and `editHistory` may be missing (`none`, i.e. `undefined`) for
records written under an older schema or inserted directly, and the
timestamps may be serialized strings. -/
structure RawEntry where
  id : String
  title : String
  content : String
  createdAt : StoredDate
  updatedAt : StoredDate
  wordCount : Nat
  isStarred : Option Bool
  isArchived : Option Bool
  isEdited : Option Bool
  editHistory : Option (List RawEditRecord)
deriving DecidableEq

/-- The settings record (keyPath `key`, single key `'app'`): an open bag
of optional fields.  `none` models both a missing field and JS `null` —
every read in the source goes through a falsy/`undefined` coalesce, so
the two are observationally equal at this layer. -/
structure SettingsRec where
  theme : Option String := none
  lastBackup : Option StoredDate := none
  showTitle : Option Bool := none
deriving DecidableEq

/-- The whole IndexedDB database plus the `this.db` initialization flag.
The `diary` store is keyed by `id`, the `settings` store by its string
key.  IndexedDB stores are key→value maps; list order carries no meaning
(the spec gives `getAll` no ordering guarantee). -/
structure DBState where
  inited : Bool
  diary : List RawEntry
  settings : List (String × SettingsRec)
deriving DecidableEq

def emptyState : DBState := { inited := false, diary := [], settings := [] }

/-- The argument of `updateDiary`:
`Partial<Omit<DiaryEntry, 'id' | 'createdAt'>>` — each field is present
(`some`) or absent (`none`).  `updatedAt` and `wordCount` may be passed
but are overwritten by the operation after the spread. -/
structure DiaryUpdates where
  title : Option String := none
  content : Option String := none
  updatedAt : Option Int := none
  wordCount : Option Nat := none
  isStarred : Option Bool := none
  isArchived : Option Bool := none
  isEdited : Option Bool := none
  editHistory : Option (List EditRecord) := none
deriving DecidableEq

end DiaryApp

namespace DiaryApp.DiaryDB

/-! ## Object-store primitives (IndexedDB `put` / `get` / `delete`) -/

/-- `objectStore('diary').put(entry)`: upsert by the `id` keyPath.  The
store is a map keyed by `id`, represented with the fresh record in
front; order is meaningless. -/
def putDiary (e : RawEntry) (l : List RawEntry) : List RawEntry :=
  e :: l.filter fun r => r.id != e.id

/-- `objectStore(...).put` on a key-keyed store (`settings`). -/
def putByKey (k : String) (v : SettingsRec) (l : List (String × SettingsRec)) :
    List (String × SettingsRec) :=
  (k, v) :: l.filter fun p => p.1 != k

/-- `objectStore(...).get(k)` on the settings store. -/
def lookupKey (k : String) (l : List (String × SettingsRec)) : Option SettingsRec :=
  (l.find? fun p => p.1 == k).map Prod.snd

/-! ## Normalization (db.ts lines 121-134) -/

def normHist (h : RawEditRecord) : EditRecord :=
  { timestamp := parseDate h.timestamp, changes := h.changes }

/-- `DiaryDBService.normalizeDiaryEntry`: parse timestamps back to
temporal values, default missing flags to `false` (`?? false`) and a
missing `editHistory` to `[]` (`|| []`), parsing each history
timestamp. -/
def normalizeDiaryEntry (entry : RawEntry) : DiaryEntry :=
  { id := entry.id
    title := entry.title
    content := entry.content
    createdAt := parseDate entry.createdAt
    updatedAt := parseDate entry.updatedAt
    wordCount := entry.wordCount
    isStarred := entry.isStarred.getD false
    isArchived := entry.isArchived.getD false
    isEdited := entry.isEdited.getD false
    editHistory := (entry.editHistory.getD []).map normHist }

/-- The storage image of a fully-populated entry (what `put` receives
from `createDiary` / `updateDiary`, whose argument is a `DiaryEntry`). -/
def toRawHist (h : EditRecord) : RawEditRecord :=
  { timestamp := .ofDate h.timestamp, changes := h.changes }

def toRaw (e : DiaryEntry) : RawEntry :=
  { id := e.id
    title := e.title
    content := e.content
    createdAt := .ofDate e.createdAt
    updatedAt := .ofDate e.updatedAt
    wordCount := e.wordCount
    isStarred := some e.isStarred
    isArchived := some e.isArchived
    isEdited := some e.isEdited
    editHistory := some (e.editHistory.map toRawHist) }

/-! ## Read paths (db.ts lines 136-160) -/

/-- `getAllDiaries`: `getAll()` then the normalization pass. -/
def getAllDiaries (st : DBState) : List DiaryEntry :=
  st.diary.map normalizeDiaryEntry

/-- `getDiary`: `get(id)`, normalized when found. -/
def getDiary (id : String) (st : DBState) : Option DiaryEntry :=
  (st.diary.find? fun r => r.id == id).map normalizeDiaryEntry

/-! ## Settings accessors (db.ts lines 61-70, 95-119, 264-301) -/

/-- `if (result?.lastBackup) result.lastBackup = parseDate(...)`:
the stored value is parsed when truthy (a `Date` is always truthy; of the
string forms only `''` is falsy and is left untouched). -/
def parseIfTruthy : Option StoredDate → Option StoredDate
  | some (.ofString "") => some (.ofString "")
  | some d => some (.ofDate (parseDate d))
  | none => none

/-- `getSettings`: read the `'app'` record, parsing `lastBackup`. -/
def getSettings (st : DBState) : Option SettingsRec :=
  (lookupKey "app" st.settings).map fun r =>
    { r with lastBackup := parseIfTruthy r.lastBackup }

def defaultSettings : SettingsRec :=
  { theme := some "light", lastBackup := none, showTitle := none }

/-- `init` (db.ts lines 27-70): no-op when already initialized, else open
the database (creating the stores) and run `initSettings`, which inserts
the default `'app'` record when absent.  `lastBackup: null` at creation
and an absent field coincide in this model (see `SettingsRec`). -/
def init (st : DBState) : DBState :=
  if st.inited then st
  else
    let st' : DBState := { st with inited := true }
    match lookupKey "app" st'.settings with
    | some _ => st'
    | none => { st' with settings := putByKey "app" defaultSettings st'.settings }

/-- `getTheme`: `settings?.theme || 'light'`. -/
def getTheme (st : DBState) : String :=
  match getSettings st with
  | some s => match s.theme with
    | some th => if th = "" then "light" else th
    | none => "light"
  | none => "light"

/-- `setTheme`: read-modify-write; silently skipped when the settings
record is absent. -/
def setTheme (th : String) (st : DBState) : DBState :=
  match getSettings st with
  | some s => { st with settings := putByKey "app" { s with theme := some th } st.settings }
  | none => st

/-- `setShowTitle`. -/
def setShowTitle (show_ : Bool) (st : DBState) : DBState :=
  match getSettings st with
  | some s => { st with settings := putByKey "app" { s with showTitle := some show_ } st.settings }
  | none => st

/-- `getShowTitle`: `settings?.showTitle !== undefined ? ... : true`. -/
def getShowTitle (st : DBState) : Bool :=
  match getSettings st with
  | some s => s.showTitle.getD true
  | none => true

/-- A `Date` is always truthy; among stored strings only `''` is falsy. -/
def jsDateTruthy : StoredDate → Bool
  | .ofDate _ => true
  | .ofString s => s != ""

/-- `getLastBackup`: `settings?.lastBackup || null`. -/
def getLastBackup (st : DBState) : Option Int :=
  match getSettings st with
  | some s =>
    match s.lastBackup with
    | some d => if jsDateTruthy d then some (parseDate d) else none
    | none => none
  | none => none

/-- `updateLastBackup` (db.ts lines 295-301): a separate operation that
stamps `settings.lastBackup = new Date()`. -/
def updateLastBackup (now : Int) (st : DBState) : DBState :=
  match getSettings st with
  | some s =>
    { st with settings := putByKey "app" { s with lastBackup := some (.ofDate now) } st.settings }
  | none => st

end DiaryApp.DiaryDB

namespace DiaryApp.DiaryDB

/-! ## Entry mutations (db.ts lines 162-244) -/

/-- `createDiary` (lines 162-187).  The source generates the id from
`Date.now()` plus a random suffix; the id is an explicit parameter here
(the claims do not concern its generation).  Returns the new id, as the
source does.  `diary.createdAt || new Date()`: a `Date` object is always
truthy, so a supplied `createdAt` always wins. -/
def createDiary (id : String) (title content : String) (createdAt : Option Int)
    (now : Int) (st : DBState) : String × DBState :=
  let wordCount := calculateWordCount content
  let nowD := createdAt.getD now
  let entry : DiaryEntry :=
    { id := id
      title := title
      content := content
      createdAt := nowD
      updatedAt := nowD
      wordCount := wordCount
      isStarred := false
      isArchived := false
      isEdited := false
      editHistory := [] }
  (id, { st with diary := putDiary (toRaw entry) st.diary })

/-- The `updated` object literal built inside `updateDiary`
(db.ts lines 196-215), named so the theorems can speak about it:
* `updates.content ? calculateWordCount(updates.content) : existing.wordCount`
  — a *truthy* test, so an empty-string content skips the recompute;
* `hasContentChange` / `hasTitleChange` use `!== undefined` tests;
* the `{...existing, ...updates}` spread is field-wise `Option.getD`,
  with `updatedAt`, `wordCount`, `isEdited` and `editHistory` overwritten
  after the spread exactly as in the object literal. -/
def updatedEntry (u : DiaryUpdates) (existing : DiaryEntry) (now : Int) : DiaryEntry :=
  let newWordCount :=
    match u.content with
    | some c => if c = "" then existing.wordCount else calculateWordCount c
    | none => existing.wordCount
  let hasContentChange :=
    match u.content with
    | some c => c != existing.content
    | none => false
  let hasTitleChange :=
    match u.title with
    | some t => t != existing.title
    | none => false
  let hasActualChange := hasContentChange || hasTitleChange
  let newEditHistory := u.editHistory.getD existing.editHistory
  { id := existing.id
    title := u.title.getD existing.title
    content := u.content.getD existing.content
    createdAt := existing.createdAt
    updatedAt := now
    wordCount := newWordCount
    isStarred := u.isStarred.getD existing.isStarred
    isArchived := u.isArchived.getD existing.isArchived
    isEdited := u.isEdited.getD (existing.isEdited || hasActualChange)
    editHistory := newEditHistory }

/-- `updateDiary` (db.ts lines 189-223): reads the existing entry,
returns the state unchanged when the id is absent, otherwise puts the
`updatedEntry` object. -/
def updateDiary (id : String) (u : DiaryUpdates) (now : Int) (st : DBState) : DBState :=
  match getDiary id st with
  | none => st
  | some existing => { st with diary := putDiary (toRaw (updatedEntry u existing now)) st.diary }

/-- `toggleStarred` (lines 225-229). -/
def toggleStarred (id : String) (now : Int) (st : DBState) : DBState :=
  match getDiary id st with
  | none => st
  | some diary => updateDiary id { isStarred := some (!diary.isStarred) } now st

/-- `toggleArchived` (lines 231-235). -/
def toggleArchived (id : String) (now : Int) (st : DBState) : DBState :=
  match getDiary id st with
  | none => st
  | some diary => updateDiary id { isArchived := some (!diary.isArchived) } now st

/-- `deleteDiary` (lines 237-244): hard delete by key. -/
def deleteDiary (id : String) (st : DBState) : DBState :=
  { st with diary := st.diary.filter fun r => r.id != id }

/-! ## Administrative store access (db.ts lines 358-375) -/

/-- `getAllKeysFromStore`. -/
def getAllKeysFromStore (storeName : String) (st : DBState) : List String :=
  if storeName = "diary" then st.diary.map fun r => r.id
  else if storeName = "settings" then st.settings.map fun p => p.1
  else []

/-- `deleteFromStore(storeName, key)`: generic delete-by-key against
either store.  An unknown store name makes `db.transaction` throw; the
state is unchanged in that case. -/
def deleteFromStore (storeName : String) (key : String) (st : DBState) : DBState :=
  if storeName = "diary" then { st with diary := st.diary.filter fun r => r.id != key }
  else if storeName = "settings" then
    { st with settings := st.settings.filter fun p => p.1 != key }
  else st

end DiaryApp.DiaryDB

namespace DiaryApp

/-! ## JSON values (the result of `JSON.parse` on a restore input) -/

/-- Parsed JSON.  `restoreBackup` takes `Option Json`: `none` models an
input string that is not well-formed JSON (`JSON.parse` throws).
Duplicate object keys are already collapsed by `JSON.parse` and are out
of scope; `find?` takes the first binding. -/
inductive Json where
  | null
  | bool (b : Bool)
  | num (n : Int)
  | str (s : String)
  | arr (elems : List Json)
  | obj (fields : List (String × Json))

/-- JS property access `value.k`: a field of an object, `undefined`
(`none`) otherwise.  (On `null` the access throws, but `restoreBackup`
wraps everything in the same catch, so the observable result is the same
as `undefined` here.) -/
def Json.getField (j : Json) (k : String) : Option Json :=
  match j with
  | .obj fields => (fields.find? fun p => p.1 == k).map Prod.snd
  | _ => none

/-- JS truthiness of a JSON value (`NaN` is unrepresented). -/
def Json.truthy : Json → Bool
  | .null => false
  | .bool b => b
  | .num n => n != 0
  | .str s => s != ""
  | .arr _ => true
  | .obj _ => true

def Json.asStr : Json → Option String
  | .str s => some s
  | _ => none

def Json.asBool : Json → Option Bool
  | .bool b => some b
  | _ => none

def Json.asNat : Json → Option Nat
  | .num n => some n.toNat
  | _ => none

/-- A serialized timestamp in a snapshot: ISO string or epoch number;
`null` and other shapes give nothing. -/
def Json.asDate : Json → Option StoredDate
  | .str s => some (.ofString s)
  | .num n => some (.ofDate n)
  | _ => none

end DiaryApp

namespace DiaryApp.DiaryDB

/-! ## Backup / restore codec (db.ts lines 303-356) -/

/-- The object literal `backupData` builds before `JSON.stringify`. -/
structure Backup where
  diaries : List DiaryEntry
  settings : Option SettingsRec
  exportDate : Int
deriving DecidableEq

/-- `backupData` (lines 303-314): read everything, build the snapshot,
serialize.  It performs no write at all — the state comes back
untouched. -/
def backupData (st : DBState) (now : Int) : Backup × DBState :=
  ({ diaries := getAllDiaries st, settings := getSettings st, exportDate := now }, st)

/-- `{...diary, isStarred: diary.isStarred ?? false, ...}` for one
snapshot entry, at the schema's field types (restore inputs carrying
non-schema-typed field values are out of scope). -/
def decodeEntry (j : Json) : RawEntry :=
  { id := ((j.getField "id").bind Json.asStr).getD ""
    title := ((j.getField "title").bind Json.asStr).getD ""
    content := ((j.getField "content").bind Json.asStr).getD ""
    createdAt := ((j.getField "createdAt").bind Json.asDate).getD (.ofDate 0)
    updatedAt := ((j.getField "updatedAt").bind Json.asDate).getD (.ofDate 0)
    wordCount := ((j.getField "wordCount").bind Json.asNat).getD 0
    isStarred := some (((j.getField "isStarred").bind Json.asBool).getD false)
    isArchived := some (((j.getField "isArchived").bind Json.asBool).getD false)
    isEdited := some (((j.getField "isEdited").bind Json.asBool).getD false)
    editHistory := some (match j.getField "editHistory" with
      | some (.arr hs) => hs.map fun h =>
          { timestamp := ((h.getField "timestamp").bind Json.asDate).getD (.ofDate 0)
            changes := ((h.getField "changes").bind Json.asStr).getD "" }
      | _ => []) }

/-- The snapshot's settings object as stored by
`settingsStore.put({key: 'app', ...data.settings})`: the record holds
exactly the snapshot's fields (absent fields stay absent — this is a
replacement, not a merge). -/
def decodeSettings (j : Json) : SettingsRec :=
  { theme := (j.getField "theme").bind Json.asStr
    lastBackup := (j.getField "lastBackup").bind Json.asDate
    showTitle := (j.getField "showTitle").bind Json.asBool }

/-- The key the put lands on: `{key: 'app', ...data.settings}` — a `key`
field inside the snapshot's settings is spread *after* the literal
`'app'` and overrides it. -/
def settingsKeyOf (j : Json) : String :=
  ((j.getField "key").bind Json.asStr).getD "app"

/-- `importData` (lines 328-356): clear the diary store, reinsert every
snapshot entry re-defaulted, and, when a truthy `settings` value is
present, put the snapshot settings record. -/
def importData (diaries : List Json) (settingsJ : Option Json) (st : DBState) : DBState :=
  let newDiary := diaries.foldl (fun acc d => putDiary (decodeEntry d) acc) []
  let newSettings :=
    match settingsJ with
    | some sj => if sj.truthy then putByKey (settingsKeyOf sj) (decodeSettings sj) st.settings
                 else st.settings
    | none => st.settings
  { st with diary := newDiary, settings := newSettings }

/-- The message every restore failure surfaces (the outer catch in
`restoreBackup` rewraps the inner shape error). -/
def backupInvalidMsg : String := "備份數據無效或已損壞"

/-- The shape gate of `restoreBackup`:
`JSON.parse` succeeded and `data.diaries` is an array
(`!data.diaries || !Array.isArray(data.diaries)` — an empty array is
truthy for `Array.isArray` purposes and passes). -/
def isValidBackupShape : Option Json → Bool
  | some d =>
    match d.getField "diaries" with
    | some (.arr _) => true
    | _ => false
  | none => false

/-- `restoreBackup` (lines 316-326): parse, gate on the shape, then
`importData`.  Returns the resulting state and the error, if any; on the
error path `importData` is never reached, so the state is the input
state. -/
def restoreBackup (parsed : Option Json) (st : DBState) : DBState × Option String :=
  match parsed with
  | none => (st, some backupInvalidMsg)
  | some data =>
    match data.getField "diaries" with
    | some (.arr ds) => (importData ds (data.getField "settings") st, none)
    | _ => (st, some backupInvalidMsg)

end DiaryApp.DiaryDB

namespace DiaryApp.Editor

open DiaryApp.DiaryDB

/-- The signed word-count delta string:
`diff > 0` gives `"+" ++ toString diff`, otherwise `toString diff`. -/
def signedDelta (diff : Int) : String :=
  if diff > 0 then "+" ++ toString diff else toString diff

/-- The update object the save path of `DiaryEditor.autoSave` builds for
an existing diary (DiaryEditor.tsx lines 88-123).  When the content
differs from `existingDiary`'s content it computes both word counts with
the utils counter, builds `existingDiary.editHistory` extended by one
record iff they differ, and passes that history (and `isEdited`) through
`updateDiary`; otherwise it saves only title/content.  `existingDiary`
is `const existingDiary = diary` — the component's *prop*, captured at
session start and NOT refreshed between in-session autosaves, so across
several autosaves the deltas and the history base are all computed
against the same stale snapshot. -/
def editorUpdates (title content : String) (existingDiary : DiaryEntry) (now : Int) :
    DiaryUpdates :=
  if existingDiary.content ≠ content then
    let oldWordCount := Utils.calculateWordCount existingDiary.content
    let newWordCount := Utils.calculateWordCount content
    let changes : List String :=
      if oldWordCount ≠ newWordCount then
        [signedDelta ((newWordCount : Int) - (oldWordCount : Int))]
      else []
    let newEditHistory :=
      if changes.length > 0 then
        existingDiary.editHistory ++ [⟨now, String.intercalate ", " changes⟩]
      else existingDiary.editHistory
    { title := some (jsTrimS title)
      content := some content
      updatedAt := some now
      isEdited := some (decide (newEditHistory.length > 0))
      editHistory := some newEditHistory }
  else
    { title := some (jsTrimS title)
      content := some content
      updatedAt := some now }

/-- One autosave: build the updates against the (possibly stale) prop
`existingDiary` and apply them to the store through `updateDiary`. -/
def editorSave (title content : String) (existingDiary : DiaryEntry) (eid : String)
    (now : Int) (st : DBState) : DBState :=
  updateDiary eid (editorUpdates title content existingDiary now) now st

/-- An editing session: a sequence of autosaves, every one of which
closes over the *same* `existingDiary` prop (the entry as it was when
the editor opened), exactly as `autoSave`'s closure does — the prop is
not refreshed between in-session saves.  Each element of `saves` is a
`(title, content, now)` triple. -/
def editorSession (eid : String) (existingDiary : DiaryEntry)
    (saves : List (String × String × Int)) (st : DBState) : DBState :=
  saves.foldl (fun acc x => editorSave x.1 x.2.1 existingDiary eid x.2.2 acc) st

end DiaryApp.Editor

namespace DiaryApp.DataMgmt

open DiaryApp.DiaryDB

/-- `handleExportJSON` (DataManagement.tsx lines 9-29): `backupData`,
then — as a separate call — `updateLastBackup`. -/
def exportFlow (st : DBState) (now : Int) : Backup × DBState :=
  let r := backupData st now
  (r.1, updateLastBackup now r.2)

end DiaryApp.DataMgmt

namespace DiaryApp.DiaryDB

/-! ## Store lemmas -/

theorem normHist_toRawHist (h : EditRecord) : normHist (toRawHist h) = h := by
  cases h; rfl

/-- Writing a fully-populated entry and normalizing it on read is the
identity. -/
theorem normalize_toRaw (e : DiaryEntry) : normalizeDiaryEntry (toRaw e) = e := by
  cases e with
  | mk id title content createdAt updatedAt wordCount isStarred isArchived isEdited editHistory =>
    simp [normalizeDiaryEntry, toRaw, parseDate, List.map_map]
    induction editHistory with
    | nil => rfl
    | cons h t ih => simp [normHist_toRawHist]; exact ih

theorem toRaw_id (e : DiaryEntry) : (toRaw e).id = e.id := rfl

/-- Reading back the entry just written. -/
theorem getDiary_putDiary_toRaw (u : DiaryEntry) (st : DBState) :
    getDiary u.id { st with diary := putDiary (toRaw u) st.diary } = some u := by
  simp [getDiary, putDiary, List.find?, toRaw_id, normalize_toRaw]

/-- Every record of the store after a put is the put record or an old
one. -/
theorem mem_putDiary {r e : RawEntry} {l : List RawEntry} (h : r ∈ putDiary e l) :
    r = e ∨ r ∈ l := by
  rcases List.mem_cons.mp h with h' | h'
  · exact Or.inl h'
  · exact Or.inr (List.mem_of_mem_filter h')

theorem lookupKey_putByKey_self (k : String) (v : SettingsRec)
    (l : List (String × SettingsRec)) : lookupKey k (putByKey k v l) = some v := by
  simp [lookupKey, putByKey, List.find?]

/-- A found entry's id is the requested id and it normalizes a stored
record. -/
theorem getDiary_eq_some {id : String} {st : DBState} {e : DiaryEntry}
    (h : getDiary id st = some e) :
    e.id = id ∧ ∃ r ∈ st.diary, normalizeDiaryEntry r = e := by
  unfold getDiary at h
  obtain ⟨r, hr, hre⟩ := Option.map_eq_some'.mp h
  have hid : r.id = id := by
    have := List.find?_some hr
    simpa using this
  refine ⟨?_, r, List.mem_of_find?_eq_some hr, hre⟩
  rw [← hre]
  simpa [normalizeDiaryEntry] using hid

theorem updatedEntry_id (u : DiaryUpdates) (e : DiaryEntry) (now : Int) :
    (updatedEntry u e now).id = e.id := rfl

/-- Reading back the entry a successful `updateDiary` stored. -/
theorem getDiary_updateDiary {id : String} {st : DBState} {e : DiaryEntry}
    (u : DiaryUpdates) (now : Int) (h : getDiary id st = some e) :
    getDiary id (updateDiary id u now st) = some (updatedEntry u e now) := by
  have hid : (updatedEntry u e now).id = id := by
    rw [updatedEntry_id]; exact (getDiary_eq_some h).1
  unfold updateDiary
  rw [h, ← hid]
  exact getDiary_putDiary_toRaw (updatedEntry u e now) st

theorem updateDiary_not_found {id : String} {st : DBState}
    (u : DiaryUpdates) (now : Int) (h : getDiary id st = none) :
    updateDiary id u now st = st := by
  unfold updateDiary
  rw [h]

end DiaryApp.DiaryDB

namespace DiaryApp

open DiaryDB

/-! ## Claim C10 — word count of the concrete scenario -/

/-- The store after creating the spec's concrete scenario entry. -/
def sampleC10 : DBState :=
  (createDiary "e1" "" "今天天氣很好 today was nice" none 0 emptyState).2

/-- C10 counterexample: creating an entry with content
"今天天氣很好 today was nice" does *not* persist wordCount 8 — the content
has three whitespace-delimited Latin words (today, was, nice), so the
counter yields 9. -/
theorem spec_C10_cex :
    (getDiary "e1" sampleC10).map (fun d => d.wordCount) ≠ some 8 := by decide

/-- C10 (amended): creating an entry with content
"今天天氣很好 today was nice" yields a persisted wordCount of 9, counted as
6 CJK glyphs plus 3 Latin words. -/
theorem spec_C10_thm :
    DiaryDB.calculateWordCount "今天天氣很好 today was nice" = 9 ∧
    cjkCount (cleanContent "今天天氣很好 today was nice") = 6 ∧
    latinWordCount (cleanContent "今天天氣很好 today was nice") = 3 ∧
    (getDiary "e1" sampleC10).map (fun d => d.wordCount) = some 9 := by decide

/-! ## Claim C3 — invalid restore input leaves the store untouched -/

/-- C3: for every stored state and every restore input that is not
well-formed JSON (`parsed = none`) or whose `diaries` field is not
array-shaped, `restoreBackup` fails with the invalid-backup error and
returns the state exactly as it was — no entry and no settings record is
modified, added or removed. -/
theorem spec_C3_thm (parsed : Option Json) (st : DBState)
    (h : isValidBackupShape parsed = false) :
    restoreBackup parsed st = (st, some backupInvalidMsg) := by
  cases parsed with
  | none => rfl
  | some d =>
    unfold restoreBackup
    unfold isValidBackupShape at h
    cases hf : d.getField "diaries" with
    | none => simp [hf]
    | some v =>
      cases v with
      | arr xs => simp [hf] at h
      | null => simp [hf]
      | bool b => simp [hf]
      | num n => simp [hf]
      | str s => simp [hf]
      | obj fs => simp [hf]

/-- A populated store used to witness C3. -/
def sampleC3 : DBState :=
  { inited := true
    diary := [{ id := "a", title := "t", content := "c", createdAt := .ofDate 1,
                updatedAt := .ofDate 2, wordCount := 1, isStarred := some true,
                isArchived := none, isEdited := none, editHistory := none }]
    settings := [("app", { theme := some "dark", lastBackup := some (.ofDate 9),
                           showTitle := some false })] }

theorem spec_C3_witness :
    isValidBackupShape (some (Json.obj [("diaries", Json.str "x")])) = false ∧
    restoreBackup (some (Json.obj [("diaries", Json.str "x")])) sampleC3 =
      (sampleC3, some backupInvalidMsg) :=
  ⟨rfl, spec_C3_thm _ sampleC3 rfl⟩

/-! ## Claim C4 — soft defaults and timestamp parsing on read -/

/-- C4: a stored record lacking the `isStarred`, `isArchived`, `isEdited`
or `editHistory` fields normalizes to `false`/`false`/`false`/`[]`, with
`createdAt`, `updatedAt` and every history timestamp parsed to temporal
values, and both read paths (`getDiary`, `getAllDiaries`) return records
through exactly this normalization pass. -/
theorem spec_C4_thm (r : RawEntry) (st : DBState) (id : String)
    (h1 : r.isStarred = none) (h2 : r.isArchived = none)
    (h3 : r.isEdited = none) (h4 : r.editHistory = none) :
    (normalizeDiaryEntry r).isStarred = false ∧
    (normalizeDiaryEntry r).isArchived = false ∧
    (normalizeDiaryEntry r).isEdited = false ∧
    (normalizeDiaryEntry r).editHistory = [] ∧
    (normalizeDiaryEntry r).createdAt = parseDate r.createdAt ∧
    (normalizeDiaryEntry r).updatedAt = parseDate r.updatedAt ∧
    getAllDiaries st = st.diary.map normalizeDiaryEntry ∧
    getDiary id st = (st.diary.find? fun x => x.id == id).map normalizeDiaryEntry ∧
    ∀ r' : RawEntry, (normalizeDiaryEntry r').editHistory =
      (r'.editHistory.getD []).map normHist := by
  simp [normalizeDiaryEntry, h1, h2, h3, h4, getAllDiaries, getDiary]

/-- A legacy record (flags and history absent, string timestamp),
inserted directly, bypassing normal create. -/
def sampleC4 : RawEntry :=
  { id := "legacy", title := "old", content := "hello 世界",
    createdAt := .ofString "2020-01-02T03:04:05.000Z",
    updatedAt := .ofDate 77, wordCount := 3,
    isStarred := none, isArchived := none, isEdited := none, editHistory := none }

def sampleC4St : DBState := { inited := true, diary := [sampleC4], settings := [] }

theorem spec_C4_witness :
    sampleC4.isStarred = none ∧
    ((normalizeDiaryEntry sampleC4).isStarred = false ∧
      (normalizeDiaryEntry sampleC4).isArchived = false ∧
      (normalizeDiaryEntry sampleC4).isEdited = false ∧
      (normalizeDiaryEntry sampleC4).editHistory = [] ∧
      (normalizeDiaryEntry sampleC4).createdAt = parseDate sampleC4.createdAt ∧
      (normalizeDiaryEntry sampleC4).updatedAt = parseDate sampleC4.updatedAt ∧
      getAllDiaries sampleC4St = sampleC4St.diary.map normalizeDiaryEntry ∧
      getDiary "legacy" sampleC4St =
        (sampleC4St.diary.find? fun x => x.id == "legacy").map normalizeDiaryEntry ∧
      ∀ r' : RawEntry, (normalizeDiaryEntry r').editHistory =
        (r'.editHistory.getD []).map normHist) :=
  ⟨rfl, spec_C4_thm sampleC4 sampleC4St "legacy" rfl rfl rfl rfl⟩

/-! ## Claim C9 — monotonicity of `isEdited` -/

/-- A store with a single entry whose `isEdited` is already `true`. -/
def sampleC9 : DBState :=
  { inited := true
    diary := [{ id := "a", title := "t", content := "x", createdAt := .ofDate 0,
                updatedAt := .ofDate 0, wordCount := 1, isStarred := some false,
                isArchived := some false, isEdited := some true, editHistory := some [] }]
    settings := [] }

/-- C9 counterexample: an update that explicitly supplies
`isEdited: false` is persisted verbatim, reverting the flag from `true`
to `false`. -/
theorem spec_C9_cex :
    (getDiary "a" sampleC9).map (fun d => d.isEdited) = some true ∧
    (getDiary "a" (updateDiary "a" { isEdited := some false } 5 sampleC9)).map
      (fun d => d.isEdited) = some false := by decide

/-- C9 (amended): as long as no update explicitly supplies an `isEdited`
value, the flag is monotone — once `true`, any update without an
explicit `isEdited` field persists `true` again.  (An explicitly
supplied `isEdited: false` does revert it; see the counterexample.) -/
theorem spec_C9_thm (id : String) (st : DBState) (e : DiaryEntry) (u : DiaryUpdates)
    (now : Int) (h : getDiary id st = some e) (he : e.isEdited = true)
    (hu : u.isEdited = none) :
    (getDiary id (updateDiary id u now st)).map (fun d => d.isEdited) = some true := by
  rw [getDiary_updateDiary u now h]
  simp [updatedEntry, hu, he]

/-- `sampleC9` after a content-changing update (no explicit `isEdited`);
the flag stays `true` via the `existing.isEdited || hasActualChange`
fallback. -/
def sampleC9b : DBState := updateDiary "a" { content := some "x yy" } 3 sampleC9

def sampleC9e : DiaryEntry :=
  { id := "a", title := "t", content := "x yy", createdAt := 0, updatedAt := 3,
    wordCount := 2, isStarred := false, isArchived := false, isEdited := true,
    editHistory := [] }

theorem spec_C9_witness :
    getDiary "a" sampleC9b = some sampleC9e ∧ sampleC9e.isEdited = true ∧
    (getDiary "a" (updateDiary "a" { title := some "t2" } 9 sampleC9b)).map
      (fun d => d.isEdited) = some true :=
  ⟨by decide, by decide,
    spec_C9_thm "a" sampleC9b sampleC9e { title := some "t2" } 9 (by decide) (by decide) rfl⟩

end DiaryApp

namespace DiaryApp

open DiaryDB

/-! ## Claim C5 — identical-content update -/

/-- A directly-inserted record whose stored wordCount (99) is stale for
its content "a b c" — the kind of record a legacy insert or a restore
(which re-inserts snapshot entries keeping their `wordCount` verbatim)
leaves in the store. -/
def sampleC5x : DBState :=
  { inited := true
    diary := [{ id := "s", title := "t", content := "a b c", createdAt := .ofDate 0,
                updatedAt := .ofDate 0, wordCount := 99, isStarred := some false,
                isArchived := some false, isEdited := some false,
                editHistory := some [] }]
    settings := [] }

/-- C5 counterexample: on an existing entry with a stale wordCount, an
update supplying a content value identical to the stored content (and
nothing else) *recomputes* and changes the persisted wordCount
(99 → 3), contrary to "leaves wordCount ... unchanged" for every
existing entry. -/
theorem spec_C5_cex :
    (getDiary "s" sampleC5x).map (fun d => (d.content, d.wordCount)) =
      some ("a b c", 99) ∧
    (getDiary "s" (updateDiary "s" { content := some "a b c" } 7 sampleC5x)).map
      (fun d => d.wordCount) = some 3 ∧ (99 : Nat) ≠ 3 := by decide

/-- C5 (amended): an update supplying a content value identical to the
stored content (and no other field) leaves id, title, content,
createdAt, isStarred, isArchived, isEdited and editHistory unchanged and
refreshes updatedAt to now, while wordCount is *recomputed* from the
content when it is non-empty (so it is unchanged exactly when the stored
wordCount already agreed with the word-count function — true of every
entry produced by create or a content-carrying update, not of stale
records — and a stale count is silently corrected); for empty content
the recompute is skipped and the stored wordCount is kept.  Any
successful update call whatsoever refreshes updatedAt to now. -/
theorem spec_C5_thm (id : String) (st : DBState) (e : DiaryEntry) (now : Int)
    (h : getDiary id st = some e) :
    getDiary id (updateDiary id { content := some e.content } now st) =
      some { e with updatedAt := now,
                    wordCount := if e.content = "" then e.wordCount
                                 else DiaryDB.calculateWordCount e.content } ∧
    ∀ u : DiaryUpdates,
      (getDiary id (updateDiary id u now st)).map (fun d => d.updatedAt) = some now := by
  constructor
  · rw [getDiary_updateDiary { content := some e.content } now h]
    congr 1
    cases e with
    | mk eid title content createdAt updatedAt wordCount isStarred isArchived isEdited hist =>
      by_cases hc : content = ""
      · simp [updatedEntry, hc]
      · simp [updatedEntry, hc]
  · intro u
    rw [getDiary_updateDiary u now h]
    simp [updatedEntry]

def sampleC5 : DBState :=
  { inited := true
    diary := [{ id := "a", title := "t", content := "hi there", createdAt := .ofDate 0,
                updatedAt := .ofDate 1, wordCount := 2, isStarred := some false,
                isArchived := some true, isEdited := some false,
                editHistory := some [⟨.ofDate 1, "+2"⟩] }]
    settings := [] }

def sampleC5e : DiaryEntry :=
  { id := "a", title := "t", content := "hi there", createdAt := 0, updatedAt := 1,
    wordCount := 2, isStarred := false, isArchived := true, isEdited := false,
    editHistory := [⟨1, "+2"⟩] }

theorem spec_C5_witness :
    getDiary "a" sampleC5 = some sampleC5e ∧
    getDiary "a" (updateDiary "a" { content := some sampleC5e.content } 42 sampleC5) =
      some { sampleC5e with updatedAt := 42,
                            wordCount := if sampleC5e.content = "" then sampleC5e.wordCount
                                         else DiaryDB.calculateWordCount sampleC5e.content } ∧
    (getDiary "a" (updateDiary "a" { isStarred := some true } 42 sampleC5)).map
      (fun d => d.updatedAt) = some 42 :=
  ⟨by decide,
   (spec_C5_thm "a" sampleC5 sampleC5e 42 (by decide)).1,
   (spec_C5_thm "a" sampleC5 sampleC5e 42 (by decide)).2 { isStarred := some true }⟩

/-! ## Claim C2 — wordCount derivation invariant -/

/-- Every stored record's wordCount agrees with the word-count function
on its content, except that a record whose content is the empty string
may carry a stale count (the update path skips recomputation for a
falsy content). -/
def wcInvariant (st : DBState) : Prop :=
  ∀ r ∈ st.diary, r.content = "" ∨ r.wordCount = DiaryDB.calculateWordCount r.content

def applyUpdates (ops : List (String × DiaryUpdates × Int)) (st : DBState) : DBState :=
  ops.foldl (fun acc x => updateDiary x.1 x.2.1 x.2.2 acc) st

theorem wcInvariant_updateDiary (id : String) (u : DiaryUpdates) (now : Int) {st : DBState}
    (h : wcInvariant st) : wcInvariant (updateDiary id u now st) := by
  unfold updateDiary
  cases hd : getDiary id st with
  | none => exact h
  | some e =>
    intro r hr
    rcases mem_putDiary hr with rfl | hmem
    · obtain ⟨-, r0, hr0mem, hr0⟩ := getDiary_eq_some hd
      have hinv := h r0 hr0mem
      have hc : e.content = r0.content := by rw [← hr0]; rfl
      have hw : e.wordCount = r0.wordCount := by rw [← hr0]; rfl
      cases hu : u.content with
      | some c =>
        by_cases hce : c = ""
        · left; simp [toRaw, updatedEntry, hu, hce]
        · right; simp [toRaw, updatedEntry, hu, hce]
      | none =>
        simp [toRaw, updatedEntry, hu, hc, hw]
        rcases hinv with h1 | h1
        · left; exact h1
        · right; exact h1
    · exact h r hmem

theorem wcInvariant_createDiary (id t c : String) (cAt : Option Int) (now : Int)
    {st : DBState} (h : wcInvariant st) :
    wcInvariant (createDiary id t c cAt now st).2 := by
  unfold createDiary
  intro r hr
  rcases mem_putDiary hr with rfl | hmem
  · right; rfl
  · exact h r hmem

/-- C2 (amended): createDiary always persists
wordCount = calculateWordCount(content); an update supplying a
*non-empty* content persists wordCount = calculateWordCount(content)
regardless of any other supplied field; and the `wcInvariant` disjunction
(exact agreement, or empty content) is established by create and
preserved by every sequence of updates.  An update supplying the empty
string keeps the previous wordCount (see the counterexample), which is
why the invariant carries the empty-content escape hatch. -/
theorem spec_C2_thm :
    (∀ id t c cAt now st,
      (getDiary id (createDiary id t c cAt now st).2).map (fun d => d.wordCount) =
        some (DiaryDB.calculateWordCount c)) ∧
    (∀ id u c now st e, getDiary id st = some e → u.content = some c → c ≠ "" →
      (getDiary id (updateDiary id u now st)).map (fun d => d.wordCount) =
        some (DiaryDB.calculateWordCount c)) ∧
    (∀ st, wcInvariant st → ∀ id t c cAt now, wcInvariant (createDiary id t c cAt now st).2) ∧
    (∀ st, wcInvariant st → ∀ ops, wcInvariant (applyUpdates ops st)) := by
  refine ⟨?_, ?_, ?_, ?_⟩
  · intro id t c cAt now st
    simp [createDiary, getDiary, putDiary, List.find?, toRaw_id, normalize_toRaw]
  · intro id u c now st e h hu hc
    rw [getDiary_updateDiary u now h]
    simp [updatedEntry, hu, hc]
  · intro st h id t c cAt now
    exact wcInvariant_createDiary id t c cAt now h
  · intro st h ops
    induction ops generalizing st with
    | nil => exact h
    | cons op rest ih =>
      exact ih _ (wcInvariant_updateDiary op.1 op.2.1 op.2.2 h)

def sampleC2 : DBState := (createDiary "e1" "t" "hi there" none 0 emptyState).2

/-- C2 counterexample: updating with content = "" (which the claim
explicitly includes) leaves the stale wordCount 2 while the stored
content becomes "", whose word count is 0. -/
theorem spec_C2_cex :
    (getDiary "e1" (updateDiary "e1" { content := some "" } 1 sampleC2)).map
      (fun d => (d.content, d.wordCount)) = some ("", 2) ∧
    DiaryDB.calculateWordCount "" = 0 ∧ (2 : Nat) ≠ 0 := by decide

def sampleC2e : DiaryEntry :=
  { id := "e1", title := "t", content := "hi there", createdAt := 0, updatedAt := 0,
    wordCount := 2, isStarred := false, isArchived := false, isEdited := false,
    editHistory := [] }

theorem spec_C2_witness :
    (getDiary "x" (createDiary "x" "t" "a b" none 0 emptyState).2).map
      (fun d => d.wordCount) = some (DiaryDB.calculateWordCount "a b") ∧
    (getDiary "e1" sampleC2 = some sampleC2e ∧ ("abc" : String) ≠ "" ∧
      (getDiary "e1" (updateDiary "e1" { content := some "abc" } 2 sampleC2)).map
        (fun d => d.wordCount) = some (DiaryDB.calculateWordCount "abc")) ∧
    (wcInvariant sampleC2 ∧
      wcInvariant (applyUpdates
        [("e1", { content := some "" }, 1), ("e1", { title := some "z" }, 2)] sampleC2)) :=
  ⟨spec_C2_thm.1 "x" "t" "a b" none 0 emptyState,
   ⟨by decide, by decide,
     spec_C2_thm.2.1 "e1" { content := some "abc" } "abc" 2 sampleC2 sampleC2e
       (by decide) rfl (by decide)⟩,
   ⟨by unfold wcInvariant; decide,
     spec_C2_thm.2.2.2 sampleC2 (by unfold wcInvariant; decide) _⟩⟩

/-! ## Claim C6 — export side effects and lastBackup -/

/-- C6 (amended): backupData produces the snapshot (all entries
including archived ones, the settings record, the export timestamp) and
changes nothing — updating lastBackup is the *separate*
`updateLastBackup` operation, which the export button handler invokes
after backupData (the `exportFlow` conjunct), setting lastBackup to now;
and a restore whose snapshot has no settings field leaves the settings
record (hence lastBackup) untouched. -/
theorem spec_C6_thm :
    (∀ st now, backupData st now =
      ({ diaries := getAllDiaries st, settings := getSettings st, exportDate := now }, st)) ∧
    (∀ st now s, getSettings st = some s →
      getLastBackup (updateLastBackup now st) = some now) ∧
    (∀ st now s, getSettings st = some s →
      getLastBackup (DataMgmt.exportFlow st now).2 = some now) ∧
    (∀ st (data : Json) ds, data.getField "diaries" = some (.arr ds) →
      data.getField "settings" = none →
      (restoreBackup (some data) st).1.settings = st.settings) := by
  refine ⟨fun st now => rfl, ?_, ?_, ?_⟩
  · intro st now s hs
    unfold updateLastBackup
    rw [hs]
    unfold getLastBackup getSettings
    rw [lookupKey_putByKey_self]
    simp [parseIfTruthy, jsDateTruthy, parseDate]
  · intro st now s hs
    unfold DataMgmt.exportFlow
    simp only [backupData]
    unfold updateLastBackup
    rw [hs]
    unfold getLastBackup getSettings
    rw [lookupKey_putByKey_self]
    simp [parseIfTruthy, jsDateTruthy, parseDate]
  · intro st data ds h1 h2
    simp [restoreBackup, h1, importData, h2]

/-- C6 counterexample: backupData itself leaves the state — and so the
lastBackup timestamp — completely untouched, contrary to "updates the
singleton settings record's last-backup timestamp ... as part of the
export operation itself". -/
theorem spec_C6_cex :
    (backupData (init emptyState) 5).2 = init emptyState ∧
    getLastBackup (backupData (init emptyState) 5).2 ≠ some 5 := by decide

def sampleC6 : DBState := init emptyState

theorem spec_C6_witness :
    getSettings sampleC6 = some defaultSettings ∧
    getLastBackup (updateLastBackup 7 sampleC6) = some 7 ∧
    getLastBackup (DataMgmt.exportFlow sampleC6 7).2 = some 7 ∧
    ((Json.obj [("diaries", Json.arr [])]).getField "diaries" = some (Json.arr []) ∧
      (Json.obj [("diaries", Json.arr [])]).getField "settings" = none ∧
      (restoreBackup (some (Json.obj [("diaries", Json.arr [])])) sampleC6).1.settings =
        sampleC6.settings) :=
  ⟨by decide,
   spec_C6_thm.2.1 sampleC6 7 defaultSettings (by decide),
   spec_C6_thm.2.2.1 sampleC6 7 defaultSettings (by decide),
   ⟨rfl, rfl, spec_C6_thm.2.2.2 sampleC6 (Json.obj [("diaries", Json.arr [])]) [] rfl rfl⟩⟩

/-! ## Claim C7 — restore replaces (not merges) the settings record -/

/-- Pre-restore store: settings with theme, lastBackup and showTitle all
populated. -/
def sampleC7 : DBState :=
  { inited := true, diary := [],
    settings := [("app", { theme := some "dark", lastBackup := some (.ofDate 3),
                           showTitle := some false })] }

def snapC7 : Json :=
  .obj [("diaries", .arr []), ("settings", .obj [("theme", .str "light")])]

/-- C7 counterexample: restoring a snapshot whose settings carry only
`theme` drops the pre-restore `showTitle := some false` and
`lastBackup` — fields absent from the snapshot do *not* retain their
previous values (getShowTitle flips from false to true). -/
theorem spec_C7_cex :
    getShowTitle sampleC7 = false ∧
    (restoreBackup (some snapC7) sampleC7).2 = none ∧
    (restoreBackup (some snapC7) sampleC7).1.settings =
      [("app", { theme := some "light", lastBackup := none, showTitle := none })] ∧
    getShowTitle (restoreBackup (some snapC7) sampleC7).1 = true ∧
    getLastBackup sampleC7 = some 3 ∧
    getLastBackup (restoreBackup (some snapC7) sampleC7).1 = none := by decide

/-- C7 (amended): a restore with settings present (truthy, carrying no
explicit `key` field) *replaces* the singleton settings record wholesale:
the resulting record is exactly the snapshot's settings under the fixed
key "app", and every field absent from the snapshot is absent (reads
fall back to defaults) rather than retained. -/
theorem spec_C7_thm (st : DBState) (data sj : Json) (ds : List Json) (r : SettingsRec)
    (h1 : data.getField "diaries" = some (.arr ds))
    (h2 : data.getField "settings" = some sj)
    (h3 : sj.truthy = true)
    (h4 : sj.getField "key" = none)
    (h5 : st.settings = [("app", r)]) :
    (restoreBackup (some data) st).1.settings = [("app", decodeSettings sj)] := by
  simp [restoreBackup, h1, importData, h2, h3, settingsKeyOf, h4, putByKey, h5]

theorem spec_C7_witness :
    snapC7.getField "diaries" = some (.arr []) ∧
    snapC7.getField "settings" = some (.obj [("theme", .str "light")]) ∧
    (Json.obj [("theme", .str "light")]).truthy = true ∧
    (Json.obj [("theme", .str "light")]).getField "key" = none ∧
    sampleC7.settings = [("app", { theme := some "dark", lastBackup := some (.ofDate 3),
                                   showTitle := some false })] ∧
    (restoreBackup (some snapC7) sampleC7).1.settings =
      [("app", decodeSettings (Json.obj [("theme", .str "light")]))] :=
  ⟨rfl, rfl, rfl, rfl, rfl,
   spec_C7_thm sampleC7 snapC7 (Json.obj [("theme", .str "light")]) []
     { theme := some "dark", lastBackup := some (.ofDate 3), showTitle := some false }
     rfl rfl rfl rfl rfl⟩

/-! ## Claim C8 — the settings singleton -/

theorem updateDiary_settings (id : String) (u : DiaryUpdates) (now : Int) (st : DBState) :
    (updateDiary id u now st).settings = st.settings := by
  unfold updateDiary
  cases hd : getDiary id st <;> rfl

theorem toggleStarred_settings (id : String) (now : Int) (st : DBState) :
    (toggleStarred id now st).settings = st.settings := by
  unfold toggleStarred
  cases hd : getDiary id st with
  | none => rfl
  | some d => exact updateDiary_settings id _ now st

theorem toggleArchived_settings (id : String) (now : Int) (st : DBState) :
    (toggleArchived id now st).settings = st.settings := by
  unfold toggleArchived
  cases hd : getDiary id st with
  | none => rfl
  | some d => exact updateDiary_settings id _ now st

theorem getSettings_of_singleton {st : DBState} {r : SettingsRec}
    (h : st.settings = [("app", r)]) :
    getSettings st = some { r with lastBackup := parseIfTruthy r.lastBackup } := by
  unfold getSettings lookupKey
  rw [h]
  simp [List.find?]

theorem putByKey_app_singleton (v r : SettingsRec) :
    putByKey "app" v [("app", r)] = [("app", v)] := by
  simp [putByKey]

/-- C8 (amended): after init on a fresh store exactly one settings
record (key "app") exists; repeated init calls are no-ops; every diary
operation, export, diary-store delete-by-key and settings-free restore
leaves the settings store untouched, and the settings setters keep it a
single "app"-keyed record — but the exposed low-level
`deleteFromStore("settings", "app")` *does* remove it (final conjunct
and counterexample). -/
theorem spec_C8_thm :
    (init emptyState).settings = [("app", defaultSettings)] ∧
    (∀ st, init (init st) = init st) ∧
    (∀ id t c cAt now st, (createDiary id t c cAt now st).2.settings = st.settings) ∧
    (∀ id u now st, (updateDiary id u now st).settings = st.settings) ∧
    (∀ id st, (deleteDiary id st).settings = st.settings) ∧
    (∀ id now st, (toggleStarred id now st).settings = st.settings) ∧
    (∀ id now st, (toggleArchived id now st).settings = st.settings) ∧
    (∀ st now, (backupData st now).2.settings = st.settings) ∧
    (∀ st k, (deleteFromStore "diary" k st).settings = st.settings) ∧
    (∀ st th r, st.settings = [("app", r)] →
      (setTheme th st).settings.map Prod.fst = ["app"]) ∧
    (∀ st b r, st.settings = [("app", r)] →
      (setShowTitle b st).settings.map Prod.fst = ["app"]) ∧
    (∀ st now r, st.settings = [("app", r)] →
      (updateLastBackup now st).settings.map Prod.fst = ["app"]) ∧
    (∀ st (data : Json) ds, data.getField "diaries" = some (.arr ds) →
      data.getField "settings" = none →
      (restoreBackup (some data) st).1.settings = st.settings) ∧
    (∀ st r, st.settings = [("app", r)] →
      (deleteFromStore "settings" "app" st).settings = []) := by
  refine ⟨by decide, ?_, fun id t c cAt now st => rfl, updateDiary_settings,
    fun id st => rfl, toggleStarred_settings, toggleArchived_settings,
    fun st now => rfl, fun st k => by simp [deleteFromStore], ?_, ?_, ?_, ?_, ?_⟩
  · intro st
    unfold init
    by_cases h : st.inited
    · simp [h]
    · simp [h]
      cases hl : lookupKey "app" st.settings with
      | some s => simp [hl]
      | none => simp [hl, lookupKey_putByKey_self]
  · intro st th r h
    unfold setTheme
    rw [getSettings_of_singleton h, h]
    simp [putByKey]
  · intro st b r h
    unfold setShowTitle
    rw [getSettings_of_singleton h, h]
    simp [putByKey]
  · intro st now r h
    unfold updateLastBackup
    rw [getSettings_of_singleton h, h]
    simp [putByKey]
  · intro st data ds h1 h2
    simp [restoreBackup, h1, importData, h2]
  · intro st r h
    simp [deleteFromStore, h]

/-- C8 counterexample: the delete-by-key administrative operation,
applied to the settings store with the fixed key, removes the singleton
settings record, contrary to "no exposed operation ... removes it". -/
theorem spec_C8_cex :
    (init emptyState).settings.length = 1 ∧
    (deleteFromStore "settings" "app" (init emptyState)).settings.length = 0 := by decide

def sampleC8 : DBState := init emptyState

theorem spec_C8_witness :
    sampleC8.settings = [("app", defaultSettings)] ∧
    (setTheme "dark" sampleC8).settings.map Prod.fst = ["app"] ∧
    (deleteFromStore "settings" "app" sampleC8).settings = [] := by
  obtain ⟨h1, h2, h3, h4, h5, h6, h7, h8, h9, h10, h11, h12, h13, h14⟩ := spec_C8_thm
  exact ⟨by decide, h10 sampleC8 "dark" defaultSettings (by decide),
    h14 sampleC8 defaultSettings (by decide)⟩

namespace Editor

/-! ## Claim C1 — who appends edit history, and how in-session saves
compose -/

/-- The entry one autosave stores: the updates computed against the
session prop `e0` (the editor's stale copy), applied by `updateDiary` to
the currently stored entry `e`. -/
def editorResult (t c : String) (e0 e : DiaryEntry) (now : Int) : DiaryEntry :=
  updatedEntry (editorUpdates t c e0 now) e now

theorem getDiary_editorSave {eid : String} {st : DBState} {e : DiaryEntry}
    (t c : String) (e0 : DiaryEntry) (now : Int) (h : getDiary eid st = some e) :
    getDiary eid (editorSave t c e0 eid now st) = some (editorResult t c e0 e now) :=
  getDiary_updateDiary (editorUpdates t c e0 now) now h

/-- A save whose content differs from the session prop's content stores
the *prop's* history base, extended by one record iff the word counts
differ — whatever the currently stored history was (this is the
overwrite: records appended by earlier in-session saves are not in
`e0.editHistory` and are lost). -/
theorem editorResult_editHistory_ne (t c : String) (e0 e : DiaryEntry) (now : Int)
    (hc : e0.content ≠ c) :
    (editorResult t c e0 e now).editHistory =
      e0.editHistory ++
        (if Utils.calculateWordCount c ≠ Utils.calculateWordCount e0.content then
          [⟨now, signedDelta ((Utils.calculateWordCount c : Int) -
            (Utils.calculateWordCount e0.content : Int))⟩]
        else []) := by
  by_cases hw : Utils.calculateWordCount e0.content = Utils.calculateWordCount c
  · simp [editorResult, editorUpdates, updatedEntry, hc, hw]
  · simp [editorResult, editorUpdates, updatedEntry, hc, hw, Ne, eq_comm]
    rw [if_neg fun hh => hw hh.symm]
    rfl

/-- A save whose content equals the session prop's content passes no
`editHistory` field, so the currently stored history is kept. -/
theorem editorResult_editHistory_eq (t c : String) (e0 e : DiaryEntry) (now : Int)
    (hc : e0.content = c) :
    (editorResult t c e0 e now).editHistory = e.editHistory := by
  simp [editorResult, editorUpdates, updatedEntry, hc]

/-- Across a session the stored history never strays more than one
record from the session prop's history: content-equal saves keep the
current value, content-differing saves reset it to `e0.editHistory` plus
at most one record. -/
theorem editorSession_editHistory {eid : String} {st : DBState} {e0 e : DiaryEntry}
    (saves : List (String × String × Int)) (h : getDiary eid st = some e)
    (hstart : e.editHistory = e0.editHistory ∨
      ∃ r, e.editHistory = e0.editHistory ++ [r]) :
    ∃ e2, getDiary eid (editorSession eid e0 saves st) = some e2 ∧
      (e2.editHistory = e0.editHistory ∨
        ∃ r, e2.editHistory = e0.editHistory ++ [r]) := by
  induction saves generalizing st e with
  | nil => exact ⟨e, by simpa [editorSession] using h, hstart⟩
  | cons x rest ih =>
    have hstep := getDiary_editorSave x.1 x.2.1 e0 x.2.2 h
    have hh : (editorResult x.1 x.2.1 e0 e x.2.2).editHistory = e0.editHistory ∨
        ∃ r, (editorResult x.1 x.2.1 e0 e x.2.2).editHistory = e0.editHistory ++ [r] := by
      by_cases hc : e0.content = x.2.1
      · rw [editorResult_editHistory_eq x.1 x.2.1 e0 e x.2.2 hc]
        exact hstart
      · rw [editorResult_editHistory_ne x.1 x.2.1 e0 e x.2.2 hc]
        by_cases hw : Utils.calculateWordCount x.2.1 ≠ Utils.calculateWordCount e0.content
        · right
          exact ⟨_, by rw [if_pos hw]⟩
        · left
          rw [if_neg hw]
          simp
    simpa [editorSession] using ih hstep hh

/-- C1 (amended): the history append lives in the editor's save flow,
not in the storage update operation, and the flow computes it against
the session-start prop `e0`, which is not refreshed between in-session
autosaves.  For any entry present in the store: a save whose content
differs from `e0`'s content stores `e0.editHistory` plus exactly one
record (timestamp = now, changes = the signed word-count delta) iff the
word counts differ — overwriting whatever records earlier in-session
saves appended — and stores `e0.editHistory` unchanged when the counts
agree; a save whose content equals `e0`'s content leaves the stored
history as it currently is; consequently a session that starts with the
prop current ends with the session-start history plus at most one
record, never one record per word-count-changing save. -/
theorem spec_C1_thm (eid : String) (st : DBState) (e0 e : DiaryEntry)
    (saves : List (String × String × Int)) (h : getDiary eid st = some e) :
    (∀ t c now, e0.content ≠ c →
      Utils.calculateWordCount c ≠ Utils.calculateWordCount e0.content →
      (getDiary eid (editorSave t c e0 eid now st)).map (fun d => d.editHistory) =
        some (e0.editHistory ++ [⟨now, signedDelta
          ((Utils.calculateWordCount c : Int) -
            (Utils.calculateWordCount e0.content : Int))⟩])) ∧
    (∀ t c now, e0.content ≠ c →
      Utils.calculateWordCount c = Utils.calculateWordCount e0.content →
      (getDiary eid (editorSave t c e0 eid now st)).map (fun d => d.editHistory) =
        some e0.editHistory) ∧
    (∀ t now, (getDiary eid (editorSave t e0.content e0 eid now st)).map
      (fun d => d.editHistory) = some e.editHistory) ∧
    (e = e0 → ∃ e2, getDiary eid (editorSession eid e0 saves st) = some e2 ∧
      (e2.editHistory = e0.editHistory ∨ ∃ r, e2.editHistory = e0.editHistory ++ [r]) ∧
      e2.editHistory.length ≤ e0.editHistory.length + 1) := by
  refine ⟨?_, ?_, ?_, ?_⟩
  · intro t c now hc hw
    rw [getDiary_editorSave t c e0 now h]
    simp [editorResult_editHistory_ne t c e0 e now hc, hw]
  · intro t c now hc hw
    rw [getDiary_editorSave t c e0 now h]
    simp [editorResult_editHistory_ne t c e0 e now hc, hw]
  · intro t now
    rw [getDiary_editorSave t e0.content e0 now h]
    simp [editorResult_editHistory_eq t e0.content e0 e now rfl]
  · intro he
    subst he
    obtain ⟨e2, h2, h3⟩ := editorSession_editHistory saves h (Or.inl rfl)
    refine ⟨e2, h2, h3, ?_⟩
    rcases h3 with h3 | ⟨r, h3⟩
    · rw [h3]
      exact Nat.le_succ _
    · rw [h3]
      simp

end Editor

def sampleC1 : DBState := (createDiary "a" "t" "x" none 0 emptyState).2

/-- C1 counterexample: the storage update operation itself does not
append edit history — updating with a content whose word count differs
(1 → 2 under both counters) leaves editHistory empty, contrary to "the
update operation itself ... appends exactly one edit-history entry ...
if and only if the two word counts differ". -/
theorem spec_C1_cex :
    DiaryDB.calculateWordCount "x y" ≠ DiaryDB.calculateWordCount "x" ∧
    Utils.calculateWordCount "x y" ≠ Utils.calculateWordCount "x" ∧
    (getDiary "a" (updateDiary "a" { content := some "x y" } 7 sampleC1)).map
      (fun d => d.editHistory) = some [] := by decide

def sampleC1W : DBState := (createDiary "w" "t" "one" none 0 emptyState).2

def sampleC1We : DiaryEntry :=
  { id := "w", title := "t", content := "one", createdAt := 0, updatedAt := 0,
    wordCount := 1, isStarred := false, isArchived := false, isEdited := false,
    editHistory := [] }

/-- An in-session autosave pair: "one two" then "one two three", both
diffed against the stale prop whose content is "one". -/
def savesC1 : List (String × String × Int) :=
  [("t", "one two", 1), ("t", "one two three", 2)]

theorem spec_C1_witness :
    getDiary "w" sampleC1W = some sampleC1We ∧
    (sampleC1We.content ≠ "one two" ∧
      Utils.calculateWordCount "one two" ≠ Utils.calculateWordCount sampleC1We.content ∧
      (getDiary "w" (Editor.editorSave "t" "one two" sampleC1We "w" 1 sampleC1W)).map
        (fun d => d.editHistory) =
        some (sampleC1We.editHistory ++ [⟨1, Editor.signedDelta
          ((Utils.calculateWordCount "one two" : Int) -
            (Utils.calculateWordCount sampleC1We.content : Int))⟩])) ∧
    (∃ e2, getDiary "w" (Editor.editorSession "w" sampleC1We savesC1 sampleC1W) =
        some e2 ∧
      (e2.editHistory = sampleC1We.editHistory ∨
        ∃ r, e2.editHistory = sampleC1We.editHistory ++ [r]) ∧
      e2.editHistory.length ≤ sampleC1We.editHistory.length + 1) ∧
    (getDiary "w" (Editor.editorSession "w" sampleC1We savesC1 sampleC1W)).map
      (fun d => d.editHistory.map fun h2 => h2.timestamp) = some [2] :=
  ⟨by decide,
   ⟨by decide, by decide,
     (Editor.spec_C1_thm "w" sampleC1W sampleC1We sampleC1We savesC1 (by decide)).1
       "t" "one two" 1 (by decide) (by decide)⟩,
   (Editor.spec_C1_thm "w" sampleC1W sampleC1We sampleC1We savesC1 (by decide)).2.2.2 rfl,
   by decide⟩

end DiaryApp
